import Mathlib

/-!
Shallow embedding of the AgriSure fraud-detection engine
(`ai-models/fraud_detection.py`, class `FraudDetectionEngine`).

Modelling conventions:
* Python floats are embedded as rationals (`ℚ`); dates as integers counting
  days (so `(d1 - d2).days` becomes plain integer subtraction).
* A Python value read with `dict.get` (may be absent / `None`) is an
  `Option`; a value read with `dict[...]` (required key) is a plain field.
* Python truthiness of an optional number (`if not lat`, `if estimated_area`,
  `if ndvi_current`) is `truthy_num`: `None` and `0` are falsy.
* The stubbed external providers (weather, NDVI, duplicate-coordinate lookup,
  area estimation, damage-pattern classifier, artificial-sign detector) are
  modelled as an explicit `Providers` record of responses, so every function
  is pure in its inputs plus the provider responses.
* A Python runtime exception (ZeroDivisionError / TypeError in
  `_verify_geospatial_data`, which propagates out of `detect_claim_fraud`)
  is modelled by returning `none`.
-/

namespace AgriSure

/-- Python truthiness of an optional number: `None` and `0`/`0.0` are falsy,
every other number is truthy. -/
def truthy_num : Option ℚ → Bool
  | none => false
  | some x => x != 0

/-- `claim_data` dict as consumed by `FraudDetectionEngine`.  `claim_date`,
`crop_type` and `sowing_date` are accessed with required indexing
(`claim_data['...']`); the remaining fields are accessed with `.get` and are
therefore optional.  Dates are integers counting days. -/
structure ClaimData where
  claim_date : ℤ
  crop_type : String
  sowing_date : ℤ
  latitude : Option ℚ
  longitude : Option ℚ
  area_hectares : Option ℚ
  damage_type : Option String
deriving DecidableEq, Repr

/-- `farmer_data` dict: only `farmer_id` is ever read (for logging), and
`trust_score` is carried but never used by the scoring path. -/
structure FarmerData where
  farmer_id : String
  trust_score : ℚ
deriving DecidableEq, Repr

/-- One entry of `historical_data`.  `date` is required by the temporal
analyzer (`claim['date']`); the behavioral analyzer reads the rest with
`.get`, so those are optional. -/
structure HistoricalRecord where
  date : ℤ
  claimed : Bool
  damage_type : Option String
  claim_amount : Option ℚ
  policy_amount : Option ℚ
deriving DecidableEq, Repr

/-- Response of `_get_weather_data`: a dict whose keys are read with
`.get(key, default)`, hence optional fields with defaults applied at the
read site (rainfall 0, min temp 20, hail `False`). -/
structure WeatherData where
  rainfall_7days : Option ℚ
  min_temp : Option ℚ
  hail_detected : Option Bool
deriving DecidableEq, Repr

/-- Responses of all external provider stubs consulted during one
assessment; `none` means the provider returned `None` (or, for the weather
dict, anything falsy). -/
structure Providers where
  estimated_area : Option ℚ
  duplicate_coordinates : Bool
  weather : Option WeatherData
  ndvi_current : Option ℚ
  ndvi_historical : Option ℚ
  damage_pattern : String
  artificial_signs : Bool
deriving DecidableEq, Repr

/-- Risk tiers returned by `_calculate_risk_level`. -/
inductive RiskLevel where
  | LOW
  | MEDIUM
  | HIGH
  | CRITICAL
deriving DecidableEq, Repr

/-- Result dict of `detect_claim_fraud` (the `timestamp` field, a wall-clock
side effect, is omitted). -/
structure FraudAssessment where
  fraud_score : ℚ
  risk_level : RiskLevel
  fraud_indicators : List String
  requires_field_verification : Bool
  auto_reject : Bool
deriving DecidableEq, Repr

/-- The `expected_ranges` dict of `_analyze_temporal_patterns`
(crop ↦ (min_days, max_days)); the membership test
`crop_type in expected_ranges` followed by the lookup is modelled as an
equality chain over the four keys, `none` for any other crop. -/
def expected_ranges (crop_type : String) : Option (ℤ × ℤ) :=
  if crop_type = "wheat" then some (60, 180)
  else if crop_type = "rice" then some (90, 150)
  else if crop_type = "cotton" then some (90, 200)
  else if crop_type = "sugarcane" then some (180, 365)
  else none

/-- `recent_claims` count of `_analyze_temporal_patterns`: records whose date
satisfies `(claim_date - record_date).days < 90`. -/
def recent_claims_count (claim_date : ℤ) (historical_data : List HistoricalRecord) : ℕ :=
  (historical_data.filter (fun r => claim_date - r.date < 90)).length

/-- `_analyze_temporal_patterns(farmer_data, claim_data, historical_data)`. -/
def analyze_temporal_patterns (_farmer_data : FarmerData) (claim_data : ClaimData)
    (historical_data : List HistoricalRecord) : ℚ :=
  let score : ℚ := 0
  let score := if recent_claims_count claim_data.claim_date historical_data > 2
    then score + 3/10 else score
  let days_since_sowing : ℤ := claim_data.claim_date - claim_data.sowing_date
  let score := match expected_ranges claim_data.crop_type with
    | some (min_days, max_days) =>
        if days_since_sowing < min_days ∨ days_since_sowing > max_days
        then score + 2/10 else score
    | none => score
  let score := if (claim_data.crop_type = "wheat" ∨ claim_data.crop_type = "rice")
      ∧ days_since_sowing > 120
    then score + 3/10 else score
  min score 1

/-- The coordinate-validity test of `_verify_geospatial_data`:
`not lat or not lon or abs(lat) > 90 or abs(lon) > 180` (short-circuit:
`abs` is only reached when the coordinate is truthy, hence present). -/
def invalid_coordinates (lat lon : Option ℚ) : Bool :=
  !truthy_num lat || !truthy_num lon || |lat.getD 0| > 90 || |lon.getD 0| > 180

/-- The area-mismatch step of `_verify_geospatial_data`:
`if estimated_area and abs(estimated_area - reported_area) / reported_area > 0.3`.
With a falsy estimate (`None` or 0) the short-circuit skips the whole check;
with a truthy estimate the division raises ZeroDivisionError when
`reported_area` is 0 and TypeError when it is missing (`None`), modelled as
`none`. -/
def area_mismatch_step (score : ℚ) (claim_data : ClaimData) (p : Providers) : Option ℚ :=
  if truthy_num p.estimated_area then
    match p.estimated_area, claim_data.area_hectares with
    | some estimated_area, some reported_area =>
        if reported_area = 0 then none
        else some (if |estimated_area - reported_area| / reported_area > 3/10
          then score + 4/10 else score)
    | _, none => none
    | none, _ => some score
  else some score

/-- `_verify_geospatial_data(claim_data)`, with the duplicate-coordinate
lookup and the satellite area estimate supplied by `Providers`.  `none`
models a propagated exception from the area-mismatch expression. -/
def verify_geospatial_data (claim_data : ClaimData) (p : Providers) : Option ℚ :=
  let score : ℚ := 0
  let score := if invalid_coordinates claim_data.latitude claim_data.longitude
    then score + 5/10 else score
  (area_mismatch_step score claim_data p).map fun score =>
    let score := if p.duplicate_coordinates then score + 6/10 else score
    min score 1

/-- The inconsistency lookup of `_verify_weather_consistency`:
`damage_type in inconsistencies and inconsistencies[damage_type]`, where the
dict keys are exactly drought, flood, hail, frost and each value reads the
weather dict with `.get` defaults (rainfall 0, hail `False`, min temp 20). -/
def weather_inconsistency (damage_type : Option String) (w : WeatherData) : Bool :=
  if damage_type = some "drought" then w.rainfall_7days.getD 0 > 20
  else if damage_type = some "flood" then w.rainfall_7days.getD 0 < 50
  else if damage_type = some "hail" then !(w.hail_detected.getD false)
  else if damage_type = some "frost" then w.min_temp.getD 20 > 5
  else false

/-- `_verify_weather_consistency(claim_data)`, weather response supplied by
`Providers` (`none` models a falsy `weather_data`, which short-circuits to
the flat 0.2 score). -/
def verify_weather_consistency (claim_data : ClaimData) (p : Providers) : ℚ :=
  match p.weather with
  | none => 2/10
  | some weather_data =>
      let score : ℚ := 0
      let score := if weather_inconsistency claim_data.damage_type weather_data
        then score + 7/10 else score
      min score 1

/-- `_analyze_satellite_images(claim_data)`, NDVI readings, damage-pattern
classification and artificial-sign detection supplied by `Providers`.
`if ndvi_current and ndvi_historical` uses Python truthiness, so a reading
of exactly 0 (or `None`) skips the NDVI-drop branch. -/
def analyze_satellite_images (_claim_data : ClaimData) (p : Providers) : ℚ :=
  let score : ℚ := 0
  let score :=
    if truthy_num p.ndvi_current && truthy_num p.ndvi_historical then
      let ndvi_drop := p.ndvi_historical.getD 0 - p.ndvi_current.getD 0
      if ndvi_drop > 3/10 ∧ p.damage_pattern = "artificial"
      then score + 6/10 else score
    else score
  let score := if p.artificial_signs then score + 8/10 else score
  min score 1

/-- `_analyze_farmer_behavior(farmer_data, historical_data)`. -/
def analyze_farmer_behavior (_farmer_data : FarmerData)
    (historical_data : List HistoricalRecord) : ℚ :=
  let score : ℚ := 0
  let total_policies := historical_data.length
  let total_claims := (historical_data.filter (fun d => d.claimed)).length
  let score := if total_policies > 0
      ∧ (total_claims : ℚ) / (total_policies : ℚ) > 7/10
    then score + 5/10 else score
  let damage_types := (historical_data.filter (fun d => d.claimed)).map
    (fun d => d.damage_type)
  let score := if damage_types.dedup.length = 1 ∧ damage_types.length > 2
    then score + 3/10 else score
  let large_claims := (historical_data.filter
    (fun d => d.claim_amount.getD 0 > d.policy_amount.getD 0 * (8/10))).length
  let score := if (large_claims : ℚ) > (total_claims : ℚ) * (5/10)
    then score + 4/10 else score
  min score 1

/-- `_calculate_risk_level(fraud_score)`. -/
def calculate_risk_level (fraud_score : ℚ) : RiskLevel :=
  if fraud_score < 3/10 then .LOW
  else if fraud_score < 6/10 then .MEDIUM
  else if fraud_score < 8/10 then .HIGH
  else .CRITICAL

/-- `_generate_fraud_indicators(temporal, geo, weather, satellite, behavioral)`. -/
def generate_fraud_indicators (temporal geo weather satellite behavioral : ℚ) :
    List String :=
  (if temporal > 5/10 then ["Suspicious timing pattern detected"] else []) ++
  (if geo > 5/10 then ["Geospatial data inconsistency"] else []) ++
  (if weather > 5/10 then ["Weather data mismatch with claimed damage"] else []) ++
  (if satellite > 5/10 then ["Satellite imagery suggests artificial damage"] else []) ++
  (if behavioral > 5/10 then ["Unusual behavioral pattern in claim history"] else [])

/-- Round-half-to-even on an exact rational, as Python's `round` does on the
real value it is handed. -/
def round_half_even (q : ℚ) : ℤ :=
  let f := ⌊q⌋
  let r := q - (f : ℚ)
  if r < 1/2 then f
  else if 1/2 < r then f + 1
  else if f % 2 = 0 then f else f + 1

/-- Python `round(x, 2)` on an exact rational value. -/
def round2 (q : ℚ) : ℚ := (round_half_even (q * 100) : ℚ) / 100

/-- The running `fraud_score` accumulated by `detect_claim_fraud` before any
rounding (`none` when `_verify_geospatial_data` raises). -/
def raw_fraud_score (farmer_data : FarmerData) (claim_data : ClaimData)
    (historical_data : List HistoricalRecord) (p : Providers) : Option ℚ :=
  (verify_geospatial_data claim_data p).map fun geo_score =>
    analyze_temporal_patterns farmer_data claim_data historical_data * (25/100)
      + geo_score * (25/100)
      + verify_weather_consistency claim_data p * (20/100)
      + analyze_satellite_images claim_data p * (20/100)
      + analyze_farmer_behavior farmer_data historical_data * (10/100)

/-- `detect_claim_fraud(farmer_data, claim_data, historical_data)`: runs the
five analyzers, accumulates the weighted score, classifies the risk level and
builds the result dict.  All threshold comparisons use the unrounded running
score; only the reported `fraud_score` field is rounded.  `none` models the
propagated exception from `_verify_geospatial_data`. -/
def detect_claim_fraud (farmer_data : FarmerData) (claim_data : ClaimData)
    (historical_data : List HistoricalRecord) (p : Providers) :
    Option FraudAssessment :=
  let temporal_score := analyze_temporal_patterns farmer_data claim_data historical_data
  (verify_geospatial_data claim_data p).map fun geo_score =>
    let weather_score := verify_weather_consistency claim_data p
    let satellite_score := analyze_satellite_images claim_data p
    let behavioral_score := analyze_farmer_behavior farmer_data historical_data
    let fraud_score := temporal_score * (25/100) + geo_score * (25/100)
      + weather_score * (20/100) + satellite_score * (20/100)
      + behavioral_score * (10/100)
    { fraud_score := round2 fraud_score
      risk_level := calculate_risk_level fraud_score
      fraud_indicators := generate_fraud_indicators temporal_score geo_score
        weather_score satellite_score behavioral_score
      requires_field_verification := fraud_score > 6/10
      auto_reject := fraud_score > 85/100 }

/-! ### Range lemmas for the five sub-scores and the aggregate -/

lemma min_one_bounds {s : ℚ} (hs : 0 ≤ s) : 0 ≤ min s 1 ∧ min s 1 ≤ 1 :=
  ⟨le_min hs one_pos.le, min_le_right s 1⟩

lemma analyze_temporal_patterns_bounds (f : FarmerData) (c : ClaimData)
    (h : List HistoricalRecord) :
    0 ≤ analyze_temporal_patterns f c h ∧ analyze_temporal_patterns f c h ≤ 1 := by
  unfold analyze_temporal_patterns
  dsimp only
  apply min_one_bounds
  rcases hm : expected_ranges c.crop_type with _ | ⟨mn, mx⟩ <;>
    dsimp only <;> split_ifs <;> norm_num

lemma area_mismatch_step_cases (s : ℚ) (c : ClaimData) (p : Providers) :
    ∀ t, area_mismatch_step s c p = some t → t = s ∨ t = s + 4/10 := by
  intro t ht
  rcases hE : p.estimated_area with _ | e <;> rcases hA : c.area_hectares with _ | a <;>
    simp only [area_mismatch_step, hE, hA, truthy_num] at ht <;>
    split_ifs at ht <;> simp_all

lemma verify_geospatial_data_bounds (c : ClaimData) (p : Providers) :
    ∀ g, verify_geospatial_data c p = some g → 0 ≤ g ∧ g ≤ 1 := by
  intro g hg
  unfold verify_geospatial_data at hg
  dsimp only at hg
  rcases hstep : area_mismatch_step
      (if invalid_coordinates c.latitude c.longitude = true then 0 + 5/10 else 0) c p
      with _ | t
  · rw [hstep] at hg; simp at hg
  · rw [hstep] at hg
    simp only [Option.map_some', Option.some.injEq] at hg
    rw [← hg]
    apply min_one_bounds
    rcases area_mismatch_step_cases _ c p t hstep with h1 | h1 <;>
      rw [h1] <;> split_ifs <;> norm_num

lemma verify_weather_consistency_bounds (c : ClaimData) (p : Providers) :
    0 ≤ verify_weather_consistency c p ∧ verify_weather_consistency c p ≤ 1 := by
  unfold verify_weather_consistency
  rcases p.weather with _ | w
  · norm_num
  · dsimp only
    apply min_one_bounds
    split_ifs <;> norm_num

lemma analyze_satellite_images_bounds (c : ClaimData) (p : Providers) :
    0 ≤ analyze_satellite_images c p ∧ analyze_satellite_images c p ≤ 1 := by
  unfold analyze_satellite_images
  dsimp only
  apply min_one_bounds
  split_ifs <;> norm_num

lemma analyze_farmer_behavior_bounds (f : FarmerData) (h : List HistoricalRecord) :
    0 ≤ analyze_farmer_behavior f h ∧ analyze_farmer_behavior f h ≤ 1 := by
  unfold analyze_farmer_behavior
  dsimp only
  apply min_one_bounds
  split_ifs <;> norm_num

lemma raw_fraud_score_bounds (f : FarmerData) (c : ClaimData)
    (h : List HistoricalRecord) (p : Providers) :
    ∀ fs, raw_fraud_score f c h p = some fs → 0 ≤ fs ∧ fs ≤ 1 := by
  intro fs hfs
  unfold raw_fraud_score at hfs
  rcases hgeo : verify_geospatial_data c p with _ | g
  · rw [hgeo] at hfs; simp at hfs
  · rw [hgeo] at hfs
    simp only [Option.map_some', Option.some.injEq] at hfs
    obtain ⟨ht1, ht2⟩ := analyze_temporal_patterns_bounds f c h
    obtain ⟨hg1, hg2⟩ := verify_geospatial_data_bounds c p g hgeo
    obtain ⟨hw1, hw2⟩ := verify_weather_consistency_bounds c p
    obtain ⟨hs1, hs2⟩ := analyze_satellite_images_bounds c p
    obtain ⟨hb1, hb2⟩ := analyze_farmer_behavior_bounds f h
    constructor <;> rw [← hfs] <;> nlinarith

/-- With a present, non-zero reported area the area-mismatch expression never
raises, whatever the provider estimate is. -/
lemma area_mismatch_step_isSome (s : ℚ) (c : ClaimData) (p : Providers)
    (r : ℚ) (har : c.area_hectares = some r) (hr : r ≠ 0) :
    ∃ t, area_mismatch_step s c p = some t := by
  unfold area_mismatch_step
  rcases hE : p.estimated_area with _ | e <;>
    simp [truthy_num, har, hr]
  split_ifs <;> simp

/-! ### Existence of the geospatial score for spec-valid areas -/

lemma verify_geospatial_data_isSome (c : ClaimData) (p : Providers)
    (r : ℚ) (har : c.area_hectares = some r) (hr : r ≠ 0) :
    ∃ g, verify_geospatial_data c p = some g := by
  unfold verify_geospatial_data
  dsimp only
  obtain ⟨t, ht⟩ := area_mismatch_step_isSome
    (if invalid_coordinates c.latitude c.longitude = true then 0 + 5/10 else 0) c p r har hr
  rw [ht]
  exact ⟨_, rfl⟩

/-! ### Claim C1 -/

/-- C1: whenever the geospatial sub-score and the running fraud score are
produced (named by the hypotheses), every one of the five sub-scores lies in
[0,1], the aggregate equals the fixed weighted sum
0.25·temporal + 0.25·geospatial + 0.20·weather + 0.20·satellite +
0.10·behavioral, and the aggregate also lies in [0,1]. -/
theorem C1_scores_lie_in_unit_interval (farmer_data : FarmerData)
    (claim_data : ClaimData) (historical_data : List HistoricalRecord)
    (p : Providers) (geo_score fraud_score : ℚ)
    (hg : verify_geospatial_data claim_data p = some geo_score)
    (hf : raw_fraud_score farmer_data claim_data historical_data p = some fraud_score) :
    0 ≤ analyze_temporal_patterns farmer_data claim_data historical_data ∧
    analyze_temporal_patterns farmer_data claim_data historical_data ≤ 1 ∧
    0 ≤ geo_score ∧ geo_score ≤ 1 ∧
    0 ≤ verify_weather_consistency claim_data p ∧
    verify_weather_consistency claim_data p ≤ 1 ∧
    0 ≤ analyze_satellite_images claim_data p ∧
    analyze_satellite_images claim_data p ≤ 1 ∧
    0 ≤ analyze_farmer_behavior farmer_data historical_data ∧
    analyze_farmer_behavior farmer_data historical_data ≤ 1 ∧
    fraud_score =
      analyze_temporal_patterns farmer_data claim_data historical_data * (25/100)
        + geo_score * (25/100)
        + verify_weather_consistency claim_data p * (20/100)
        + analyze_satellite_images claim_data p * (20/100)
        + analyze_farmer_behavior farmer_data historical_data * (10/100) ∧
    0 ≤ fraud_score ∧ fraud_score ≤ 1 := by
  obtain ⟨ht1, ht2⟩ := analyze_temporal_patterns_bounds farmer_data claim_data historical_data
  obtain ⟨hg1, hg2⟩ := verify_geospatial_data_bounds claim_data p geo_score hg
  obtain ⟨hw1, hw2⟩ := verify_weather_consistency_bounds claim_data p
  obtain ⟨hs1, hs2⟩ := analyze_satellite_images_bounds claim_data p
  obtain ⟨hb1, hb2⟩ := analyze_farmer_behavior_bounds farmer_data historical_data
  obtain ⟨hf1, hf2⟩ := raw_fraud_score_bounds farmer_data claim_data historical_data p
    fraud_score hf
  have heq : fraud_score =
      analyze_temporal_patterns farmer_data claim_data historical_data * (25/100)
        + geo_score * (25/100)
        + verify_weather_consistency claim_data p * (20/100)
        + analyze_satellite_images claim_data p * (20/100)
        + analyze_farmer_behavior farmer_data historical_data * (10/100) := by
    unfold raw_fraud_score at hf
    rw [hg] at hf
    simp only [Option.map_some', Option.some.injEq] at hf
    exact hf.symm
  exact ⟨ht1, ht2, hg1, hg2, hw1, hw2, hs1, hs2, hb1, hb2, heq, hf1, hf2⟩

def c1_farmer : FarmerData := ⟨"FARMER-1", 650⟩
def c1_claim : ClaimData := ⟨100, "wheat", 0, some 10, some 50, some 1, none⟩
def c1_providers : Providers := ⟨none, false, none, none, none, "natural", false⟩

/-- Witness for C1 at a concrete benign claim: the hypotheses hold with
geospatial sub-score 0 and aggregate 1/25. -/
theorem C1_scores_lie_in_unit_interval_witness :
    verify_geospatial_data c1_claim c1_providers = some 0 ∧
    raw_fraud_score c1_farmer c1_claim [] c1_providers = some (1/25) ∧
    (0 ≤ analyze_temporal_patterns c1_farmer c1_claim [] ∧
      analyze_temporal_patterns c1_farmer c1_claim [] ≤ 1 ∧
      0 ≤ (0:ℚ) ∧ (0:ℚ) ≤ 1 ∧
      0 ≤ verify_weather_consistency c1_claim c1_providers ∧
      verify_weather_consistency c1_claim c1_providers ≤ 1 ∧
      0 ≤ analyze_satellite_images c1_claim c1_providers ∧
      analyze_satellite_images c1_claim c1_providers ≤ 1 ∧
      0 ≤ analyze_farmer_behavior c1_farmer [] ∧
      analyze_farmer_behavior c1_farmer [] ≤ 1 ∧
      (1/25 : ℚ) =
        analyze_temporal_patterns c1_farmer c1_claim [] * (25/100)
          + 0 * (25/100)
          + verify_weather_consistency c1_claim c1_providers * (20/100)
          + analyze_satellite_images c1_claim c1_providers * (20/100)
          + analyze_farmer_behavior c1_farmer [] * (10/100) ∧
      0 ≤ (1/25 : ℚ) ∧ (1/25 : ℚ) ≤ 1) := by
  have hg : verify_geospatial_data c1_claim c1_providers = some 0 := by
    simp [verify_geospatial_data, area_mismatch_step, invalid_coordinates, truthy_num,
      c1_claim, c1_providers]
    norm_num [min_def]
  have hf : raw_fraud_score c1_farmer c1_claim [] c1_providers = some (1/25) := by
    simp [raw_fraud_score, verify_geospatial_data, area_mismatch_step, invalid_coordinates,
      truthy_num, analyze_temporal_patterns, expected_ranges, recent_claims_count,
      verify_weather_consistency, weather_inconsistency, analyze_satellite_images,
      analyze_farmer_behavior, c1_farmer, c1_claim, c1_providers]
    norm_num [min_def]
  exact ⟨hg, hf, C1_scores_lie_in_unit_interval c1_farmer c1_claim [] c1_providers 0 (1/25) hg hf⟩

/-! ### Claim C2 -/

/-- C2: `_calculate_risk_level` is a left-closed step function of the
unrounded fraud score: LOW on [0, 0.3), MEDIUM on [0.3, 0.6), HIGH on
[0.6, 0.8), CRITICAL from 0.8 up; exactly at 0.3, 0.6 and 0.8 the higher
tier is returned. -/
theorem C2_risk_level_step_function (fraud_score : ℚ) :
    (calculate_risk_level fraud_score = RiskLevel.LOW ↔ fraud_score < 3/10) ∧
    (calculate_risk_level fraud_score = RiskLevel.MEDIUM ↔
      3/10 ≤ fraud_score ∧ fraud_score < 6/10) ∧
    (calculate_risk_level fraud_score = RiskLevel.HIGH ↔
      6/10 ≤ fraud_score ∧ fraud_score < 8/10) ∧
    (calculate_risk_level fraud_score = RiskLevel.CRITICAL ↔ 8/10 ≤ fraud_score) ∧
    calculate_risk_level (3/10) = RiskLevel.MEDIUM ∧
    calculate_risk_level (6/10) = RiskLevel.HIGH ∧
    calculate_risk_level (8/10) = RiskLevel.CRITICAL := by
  refine ⟨?_, ?_, ?_, ?_, by norm_num [calculate_risk_level],
    by norm_num [calculate_risk_level], by norm_num [calculate_risk_level]⟩ <;>
  · unfold calculate_risk_level
    split_ifs <;> simp_all <;> (try intros) <;> linarith

/-! ### Claim C3 -/

/-- C3: in the assessment built by `detect_claim_fraud`,
`requires_field_verification` holds iff the unrounded fraud score exceeds
0.6, `auto_reject` holds iff it exceeds 0.85, hence `auto_reject` implies
`requires_field_verification`; the reported `fraud_score` field is the
2-decimal rounding of that unrounded value, which itself is not what the
threshold comparisons use. -/
theorem C3_flags_threshold_unrounded (farmer_data : FarmerData) (claim_data : ClaimData)
    (historical_data : List HistoricalRecord) (p : Providers) (fs : ℚ)
    (hf : raw_fraud_score farmer_data claim_data historical_data p = some fs) :
    ∃ a, detect_claim_fraud farmer_data claim_data historical_data p = some a ∧
      (a.requires_field_verification = true ↔ fs > 6/10) ∧
      (a.auto_reject = true ↔ fs > 85/100) ∧
      (a.auto_reject = true → a.requires_field_verification = true) ∧
      a.fraud_score = round2 fs := by
  unfold raw_fraud_score at hf
  unfold detect_claim_fraud
  rcases hgeo : verify_geospatial_data claim_data p with _ | g
  · rw [hgeo] at hf; simp at hf
  · rw [hgeo] at hf
    simp only [Option.map_some', Option.some.injEq] at hf
    dsimp only
    refine ⟨_, rfl, ?_, ?_, ?_, ?_⟩
    · simp [hf]
    · simp [hf]
    · simp only [decide_eq_true_eq]
      intro h
      linarith
    · simp [hf]

def c3_farmer : FarmerData := ⟨"FARMER-3", 500⟩
def c3_claim : ClaimData := ⟨1000, "wheat", 810, some 0, some 50, some 2, some "drought"⟩
def c3_record : HistoricalRecord := ⟨950, true, some "pest", some 90, some 100⟩
def c3_providers : Providers :=
  ⟨none, true, some ⟨some 45, some 22, some false⟩, some (1/10), some (1/2), "artificial", true⟩

/-- Witness for C3 at a concrete high-risk claim whose unrounded fraud score
is 0.89, so both flags are set. -/
theorem C3_flags_threshold_unrounded_witness :
    raw_fraud_score c3_farmer c3_claim [c3_record, c3_record, c3_record] c3_providers
      = some (89/100) ∧
    (∃ a, detect_claim_fraud c3_farmer c3_claim [c3_record, c3_record, c3_record]
        c3_providers = some a ∧
      (a.requires_field_verification = true ↔ (89/100 : ℚ) > 6/10) ∧
      (a.auto_reject = true ↔ (89/100 : ℚ) > 85/100) ∧
      (a.auto_reject = true → a.requires_field_verification = true) ∧
      a.fraud_score = round2 (89/100)) := by
  have hf : raw_fraud_score c3_farmer c3_claim [c3_record, c3_record, c3_record]
      c3_providers = some (89/100) := by
    simp [raw_fraud_score, verify_geospatial_data, area_mismatch_step, invalid_coordinates,
      truthy_num, analyze_temporal_patterns, expected_ranges, recent_claims_count,
      verify_weather_consistency, weather_inconsistency, analyze_satellite_images,
      analyze_farmer_behavior, c3_farmer, c3_claim, c3_record, c3_providers, List.filter,
      List.dedup]
    norm_num [min_def]
  exact ⟨hf, C3_flags_threshold_unrounded c3_farmer c3_claim
    [c3_record, c3_record, c3_record] c3_providers (89/100) hf⟩

/-! ### Claim C4 -/

def c4_farmer : FarmerData := ⟨"FARMER-4", 700⟩
def c4_claim : ClaimData := ⟨0, "wheat", 5, some 10, some 50, some 1, none⟩
def c4_providers : Providers := ⟨none, false, none, none, none, "natural", false⟩

/-- C4 counterexample: a malformed claim whose claim date precedes its sowing
date (days since sowing = −5 < 0) is not rejected with a validation failure:
`detect_claim_fraud` silently absorbs it into the out-of-window penalty and
produces a complete assessment (score 0.09, LOW risk). -/
theorem C4_malformed_dates_still_scored :
    c4_claim.claim_date - c4_claim.sowing_date < 0 ∧
    detect_claim_fraud c4_farmer c4_claim [] c4_providers
      = some ⟨9/100, RiskLevel.LOW, [], false, false⟩ := by
  refine ⟨by norm_num [c4_claim], ?_⟩
  simp [detect_claim_fraud, verify_geospatial_data, area_mismatch_step, invalid_coordinates,
    truthy_num, analyze_temporal_patterns, expected_ranges, recent_claims_count,
    verify_weather_consistency, weather_inconsistency, analyze_satellite_images,
    analyze_farmer_behavior, calculate_risk_level, generate_fraud_indicators,
    round2, round_half_even, c4_farmer, c4_claim, c4_providers]
  norm_num [min_def]

/-- C4 amended: the engine performs no input validation.  Every input whose
reported area is present and non-zero — including date-malformed ones —
produces a `FraudAssessment`; nothing resembling a `ValidationError` exists
in the scoring path. -/
theorem C4_no_validation_assessment_total (farmer_data : FarmerData)
    (claim_data : ClaimData) (historical_data : List HistoricalRecord) (p : Providers)
    (r : ℚ) (har : claim_data.area_hectares = some r) (hr : r ≠ 0) :
    ∃ a, detect_claim_fraud farmer_data claim_data historical_data p = some a := by
  obtain ⟨g, hg⟩ := verify_geospatial_data_isSome claim_data p r har hr
  unfold detect_claim_fraud
  rw [hg]
  exact ⟨_, rfl⟩

/-- Witness for the amended C4 at the date-malformed concrete claim. -/
theorem C4_no_validation_assessment_total_witness :
    c4_claim.area_hectares = some 1 ∧ (1 : ℚ) ≠ 0 ∧
    ∃ a, detect_claim_fraud c4_farmer c4_claim [] c4_providers = some a :=
  ⟨rfl, by norm_num,
    C4_no_validation_assessment_total c4_farmer c4_claim [] c4_providers 1 rfl (by norm_num)⟩

/-! ### Claim C5 -/

def c5_claim : ClaimData := ⟨100, "wheat", 0, some 0, some 50, some 1, none⟩
def c5_providers : Providers := ⟨none, false, none, none, none, "natural", false⟩

/-- C5: latitude 0 (the equator) with longitude 50 is a present, in-range
coordinate pair, yet the coordinate check treats the zero coordinate as
falsy (`not lat`) and adds the 0.5 penalty: the geospatial score is 0.5, not
0, for this otherwise clean claim. -/
theorem C5_equator_coordinate_penalized :
    |(0 : ℚ)| ≤ 90 ∧ |(50 : ℚ)| ≤ 180 ∧
    c5_claim.latitude = some 0 ∧ c5_claim.longitude = some 50 ∧
    invalid_coordinates c5_claim.latitude c5_claim.longitude = true ∧
    verify_geospatial_data c5_claim c5_providers = some (5/10) := by
  refine ⟨by norm_num, by norm_num, rfl, rfl, ?_, ?_⟩
  · simp [invalid_coordinates, truthy_num, c5_claim]
  · simp [verify_geospatial_data, area_mismatch_step, invalid_coordinates, truthy_num,
      c5_claim, c5_providers]
    norm_num [min_def]

/-! ### Claim C6 -/

def c6_farmer : FarmerData := ⟨"FARMER-6", 700⟩
def c6_claim : ClaimData := ⟨100, "wheat", 0, some 10, some 50, some 0, none⟩
def c6_providers : Providers := ⟨some 1, false, none, none, none, "natural", false⟩

/-- C6: with reported area 0 and a truthy provider estimate (1.0), the area
check is not skipped: the guard only tests the estimate, the division
`abs(estimated_area - reported_area) / reported_area` is evaluated with a
zero denominator, and the whole assessment aborts (modelled as `none`)
instead of returning a score in [0,1]. -/
theorem C6_zero_area_division_raises :
    c6_claim.area_hectares = some 0 ∧
    truthy_num c6_providers.estimated_area = true ∧
    verify_geospatial_data c6_claim c6_providers = none ∧
    detect_claim_fraud c6_farmer c6_claim [] c6_providers = none := by
  refine ⟨rfl, by simp [truthy_num, c6_providers], ?_, ?_⟩
  · simp [verify_geospatial_data, area_mismatch_step, invalid_coordinates, truthy_num,
      c6_claim, c6_providers]
  · simp [detect_claim_fraud, verify_geospatial_data, area_mismatch_step,
      invalid_coordinates, truthy_num, c6_claim, c6_providers]

/-! ### Claim C7 -/

def c7_farmer : FarmerData := ⟨"FARMER-7", 600⟩
def c7_claim : ClaimData := ⟨180, "wheat", 0, some 10, some 50, some 1, none⟩

/-- C7 counterexample: for wheat at exactly 180 days since sowing the
out-of-window penalty does NOT fire (the code's upper bound is inclusive:
`days_since_sowing > max_days`), so the temporal score is only the 0.3
near-harvest penalty, not 0.2 + 0.3 as the claimed half-open window
[60, 180) would require. -/
theorem C7_upper_bound_day180_not_penalized :
    c7_claim.crop_type = "wheat" ∧
    c7_claim.claim_date - c7_claim.sowing_date = 180 ∧
    analyze_temporal_patterns c7_farmer c7_claim [] = 3/10 ∧
    analyze_temporal_patterns c7_farmer c7_claim [] ≠ 2/10 + 3/10 := by
  have h : analyze_temporal_patterns c7_farmer c7_claim [] = 3/10 := by
    simp [analyze_temporal_patterns, expected_ranges, recent_claims_count,
      c7_farmer, c7_claim]
    norm_num [min_def]
  exact ⟨rfl, by norm_num [c7_claim], h, by rw [h]; norm_num⟩

/-- A single-claim input with the given crop and days since sowing, no
history interference, used to characterise the temporal penalties. -/
def mk_claim (crop_type : String) (days : ℤ) : ClaimData :=
  ⟨days, crop_type, 0, some 10, some 50, some 1, none⟩

/-- C7 amended: the harvest windows are inclusive at BOTH ends — the 0.2
penalty fires iff `days < lower ∨ days > upper` for wheat [60,180],
rice [90,150], cotton [90,200], sugarcane [180,365]; any other crop never
receives it; and the 0.3 near-harvest penalty for wheat/rice past day 120
stacks additively with it. -/
theorem C7_harvest_window_penalties (crop_type : String) (days : ℤ) :
    analyze_temporal_patterns c7_farmer (mk_claim crop_type days) [] =
      (if (crop_type = "wheat" ∧ (days < 60 ∨ days > 180)) ∨
          (crop_type = "rice" ∧ (days < 90 ∨ days > 150)) ∨
          (crop_type = "cotton" ∧ (days < 90 ∨ days > 200)) ∨
          (crop_type = "sugarcane" ∧ (days < 180 ∨ days > 365))
        then 2/10 else 0)
      + (if (crop_type = "wheat" ∨ crop_type = "rice") ∧ days > 120 then 3/10 else 0) := by
  by_cases hw : crop_type = "wheat"
  · subst hw
    simp [analyze_temporal_patterns, mk_claim, expected_ranges, recent_claims_count]
    split_ifs <;> norm_num [min_def]
  by_cases hr : crop_type = "rice"
  · subst hr
    simp [analyze_temporal_patterns, mk_claim, expected_ranges, recent_claims_count]
    split_ifs <;> norm_num [min_def]
  by_cases hc : crop_type = "cotton"
  · subst hc
    simp [analyze_temporal_patterns, mk_claim, expected_ranges, recent_claims_count]
    split_ifs <;> norm_num [min_def]
  by_cases hs : crop_type = "sugarcane"
  · subst hs
    simp [analyze_temporal_patterns, mk_claim, expected_ranges, recent_claims_count]
    split_ifs <;> norm_num [min_def]
  · simp [analyze_temporal_patterns, mk_claim, expected_ranges, recent_claims_count,
      hw, hr, hc, hs]

/-! ### Claim C8 -/

def c8_farmer : FarmerData := ⟨"FARMER-8", 600⟩
def c8_claim : ClaimData := ⟨1000, "maize", 900, some 10, some 50, some 1, none⟩
def c8_record : HistoricalRecord := ⟨1010, false, none, none, none⟩

/-- C8 counterexample: three historical records dated 10 days AFTER the
claim date still satisfy `(claim_date - record_date).days < 90` (the
difference is negative), so they are counted and the 0.3 multiple-claims
penalty fires, although the claim says records after the claim date are not
counted. -/
theorem C8_future_records_counted :
    c8_claim.claim_date < c8_record.date ∧
    recent_claims_count c8_claim.claim_date [c8_record, c8_record, c8_record] = 3 ∧
    analyze_temporal_patterns c8_farmer c8_claim [c8_record, c8_record, c8_record]
      = 3/10 := by
  refine ⟨by norm_num [c8_claim, c8_record], ?_, ?_⟩
  · simp [recent_claims_count, c8_claim, c8_record, List.filter]
  · simp [analyze_temporal_patterns, expected_ranges, recent_claims_count,
      c8_farmer, c8_claim, c8_record, List.filter]
    norm_num [min_def]

/-- C8 amended: the recent-claims filter keeps exactly the records dated
strictly later than `claim_date - 90` — a one-sided window that includes
every record dated after the claim date; the 0.3 penalty fires iff more than
two such records exist (shown on a crop with no other temporal penalty). -/
theorem C8_recent_window_shape (claim_date : ℤ) (history : List HistoricalRecord) :
    recent_claims_count claim_date history
      = (history.filter (fun r => claim_date - 90 < r.date)).length ∧
    ∀ (f : FarmerData) (c : ClaimData), c.claim_date = claim_date →
      c.crop_type = "maize" →
      analyze_temporal_patterns f c history
        = if recent_claims_count claim_date history > 2 then 3/10 else 0 := by
  constructor
  · unfold recent_claims_count
    congr 1
    apply List.filter_congr
    intro r _
    simp only [decide_eq_decide]
    omega
  · intro f c h1 h2
    unfold analyze_temporal_patterns
    simp [expected_ranges, h1, h2, recent_claims_count]
    split_ifs <;> norm_num [min_def]

/-- Witness for the amended C8 at the concrete future-dated history. -/
theorem C8_recent_window_shape_witness :
    (recent_claims_count 1000 [c8_record, c8_record, c8_record]
      = ([c8_record, c8_record, c8_record].filter (fun r => 1000 - 90 < r.date)).length) ∧
    analyze_temporal_patterns c8_farmer c8_claim [c8_record, c8_record, c8_record]
      = (if recent_claims_count 1000 [c8_record, c8_record, c8_record] > 2
          then 3/10 else 0) := by
  have h := C8_recent_window_shape 1000 [c8_record, c8_record, c8_record]
  exact ⟨h.1, h.2 c8_farmer c8_claim rfl rfl⟩

/-! ### Claim C9 -/

/-- C9: the weather consistency score is exactly 0.2 when the provider
returns no data (graceful fallback, no exception); otherwise it is 0.7
exactly when the claim's single damage type is drought/flood/hail/frost and
that type's inconsistency holds (drought with 7-day rainfall > 20 mm, flood
with 7-day rainfall < 50 mm, hail with no hail detected, frost with minimum
temperature > 5 °C), and 0 otherwise — at most one penalty can fire. -/
theorem C9_weather_consistency_characterised (claim_data : ClaimData) (p : Providers) :
    (p.weather = none → verify_weather_consistency claim_data p = 2/10) ∧
    ∀ w, p.weather = some w →
      verify_weather_consistency claim_data p =
        if (claim_data.damage_type = some "drought" ∧ w.rainfall_7days.getD 0 > 20) ∨
           (claim_data.damage_type = some "flood" ∧ w.rainfall_7days.getD 0 < 50) ∨
           (claim_data.damage_type = some "hail" ∧ w.hail_detected.getD false = false) ∨
           (claim_data.damage_type = some "frost" ∧ w.min_temp.getD 20 > 5)
        then 7/10 else 0 := by
  constructor
  · intro h
    unfold verify_weather_consistency
    rw [h]
  · intro w hw
    unfold verify_weather_consistency
    rw [hw]
    dsimp only
    unfold weather_inconsistency
    by_cases hd : claim_data.damage_type = some "drought"
    · simp [hd]
      split_ifs <;> norm_num [min_def]
    by_cases hf : claim_data.damage_type = some "flood"
    · simp [hd, hf]
      split_ifs <;> norm_num [min_def]
    by_cases hh : claim_data.damage_type = some "hail"
    · simp [hd, hf, hh]
      split_ifs <;> norm_num [min_def]
    by_cases hfr : claim_data.damage_type = some "frost"
    · simp [hd, hf, hh, hfr]
      split_ifs <;> norm_num [min_def]
    · simp [hd, hf, hh, hfr]

def c9_claim : ClaimData := ⟨1000, "rice", 910, some 21, some 79, some 3, some "drought"⟩
def c9_providers_offline : Providers := ⟨none, false, none, none, none, "natural", false⟩
def c9_providers_online : Providers :=
  ⟨none, false, some ⟨some 45, some 22, some false⟩, none, none, "natural", false⟩

/-- Witness for C9: with the provider offline the score is exactly 0.2; with
the provider reporting 45 mm of rain against a drought claim it is 0.7. -/
theorem C9_weather_consistency_characterised_witness :
    verify_weather_consistency c9_claim c9_providers_offline = 2/10 ∧
    verify_weather_consistency c9_claim c9_providers_online = 7/10 := by
  constructor
  · exact (C9_weather_consistency_characterised c9_claim c9_providers_offline).1 rfl
  · have h := (C9_weather_consistency_characterised c9_claim c9_providers_online).2
      ⟨some 45, some 22, some false⟩ rfl
    rw [h, if_pos]
    exact Or.inl ⟨rfl, by norm_num⟩

/-! ### Claim C10 -/

/-- C10: if either NDVI reading is exactly 0 the Python truthiness test
`if ndvi_current and ndvi_historical` skips the NDVI-drop comparison, so the
0.6 artificial-drop penalty can never fire — whatever the actual drop is —
and the satellite score is decided solely by the artificial-damage-signs
branch: 0.8 when signs are detected, otherwise 0. -/
theorem C10_zero_ndvi_skips_drop_check (claim_data : ClaimData) (p : Providers)
    (h : p.ndvi_current = some 0 ∨ p.ndvi_historical = some 0) :
    analyze_satellite_images claim_data p
      = if p.artificial_signs then 8/10 else 0 := by
  unfold analyze_satellite_images
  dsimp only
  have hfalse : (truthy_num p.ndvi_current && truthy_num p.ndvi_historical) = false := by
    rcases h with h | h <;> simp [h, truthy_num]
  rw [hfalse]
  simp only [Bool.false_eq_true, if_false]
  split_ifs <;> norm_num [min_def]

def c10_claim : ClaimData := ⟨1000, "rice", 910, some 21, some 79, some 3, some "flood"⟩
def c10_providers : Providers :=
  ⟨none, false, none, some 0, some (1/2), "artificial", false⟩

/-- Witness for C10: prior NDVI 0.5, current NDVI 0.0 — a drop of 0.5 > 0.3
with an artificial damage pattern — yet the satellite score follows only the
(absent) artificial-signs branch. -/
theorem C10_zero_ndvi_skips_drop_check_witness :
    c10_providers.ndvi_current = some 0 ∧
    c10_providers.ndvi_historical.getD 0 - c10_providers.ndvi_current.getD 0 > 3/10 ∧
    c10_providers.damage_pattern = "artificial" ∧
    analyze_satellite_images c10_claim c10_providers
      = if c10_providers.artificial_signs then 8/10 else 0 := by
  refine ⟨rfl, by norm_num [c10_providers], rfl, ?_⟩
  exact C10_zero_ndvi_skips_drop_check c10_claim c10_providers (Or.inl rfl)

end AgriSure





